import Mathlib

/-!
Verification development for the Monkey-language front-end (lexer + Pratt
parser).  The definitions below are a shallow embedding of the Rust sources:
`src/lexer/token.rs`, `src/lexer/mod.rs` (the lexer), `src/parser/mod.rs`
and `src/parser/precedence.rs` (the parser), `src/parser/error/span.rs`
(diagnostics), and the AST display implementations in `ast/expression.rs`
and `rust/ast/statement.rs`.

Modelling conventions:
* Rust `String` buffers become `List Char`; byte positions become character
  indices (the two coincide on ASCII input, and the Rust code always lands
  on character boundaries, so the produced token sequence is the same).
* Rust `usize` counters become `Nat`; the `i32` precedence values (1..7)
  become `Nat`.
* The Rust `while` loops of the lexer and the mutually recursive parse
  functions are written with an explicit fuel argument; the fuel bounds used
  are large enough that the fuel never runs out on the executions the
  theorems talk about (the lexer loops advance `next_read_position` by one
  on every iteration, so `input.length + 2` iterations always suffice).
-/

namespace Monkey

/-- The NUL character, `'\0'` in the Rust sources. -/
def nul : Char := Char.ofNat 0

/-- Left brace character (written via its code point). -/
def lbraceChar : Char := Char.ofNat 123

/-- Right brace character (written via its code point). -/
def rbraceChar : Char := Char.ofNat 125

/-- `TokenType` from `src/lexer/token.rs` (all 29 variants, including
`LBRACKET`, `RBRACKET` and `COLON`). -/
inductive TokenType where
  | ILLEGAL
  | EOF
  | IDENT
  | INT
  | ASSIGN
  | PLUS
  | MINUS
  | BANG
  | SLASH
  | ASTERISK
  | LT
  | GT
  | NOTEQ
  | EQ
  | COMMA
  | SEMICOLON
  | LPAREN
  | RPAREN
  | LBRACE
  | RBRACE
  | LBRACKET
  | RBRACKET
  | COLON
  | FUNCTION
  | LET
  | IF
  | ELSE
  | RETURN
  | TRUE
  | FALSE
deriving DecidableEq, Repr

/-- The Rust `{:?}` debug rendering of a `TokenType` (the variant name),
used in the parser's `format!` error messages. -/
def TokenType.debugStr : TokenType → String
  | .ILLEGAL => "ILLEGAL"
  | .EOF => "EOF"
  | .IDENT => "IDENT"
  | .INT => "INT"
  | .ASSIGN => "ASSIGN"
  | .PLUS => "PLUS"
  | .MINUS => "MINUS"
  | .BANG => "BANG"
  | .SLASH => "SLASH"
  | .ASTERISK => "ASTERISK"
  | .LT => "LT"
  | .GT => "GT"
  | .NOTEQ => "NOTEQ"
  | .EQ => "EQ"
  | .COMMA => "COMMA"
  | .SEMICOLON => "SEMICOLON"
  | .LPAREN => "LPAREN"
  | .RPAREN => "RPAREN"
  | .LBRACE => "LBRACE"
  | .RBRACE => "RBRACE"
  | .LBRACKET => "LBRACKET"
  | .RBRACKET => "RBRACKET"
  | .COLON => "COLON"
  | .FUNCTION => "FUNCTION"
  | .LET => "LET"
  | .IF => "IF"
  | .ELSE => "ELSE"
  | .RETURN => "RETURN"
  | .TRUE => "TRUE"
  | .FALSE => "FALSE"

/-- `Token` from `src/lexer/token.rs`. -/
structure Token where
  token_type : TokenType
  literal : String
  line : Nat
  column : Nat
deriving DecidableEq, Repr

/-- `lookup_identifier` from `src/lexer/token.rs`: keyword table. -/
def lookup_identifier (ident : String) : TokenType :=
  if ident = "fn" then .FUNCTION
  else if ident = "let" then .LET
  else if ident = "if" then .IF
  else if ident = "else" then .ELSE
  else if ident = "return" then .RETURN
  else if ident = "true" then .TRUE
  else if ident = "false" then .FALSE
  else .IDENT

/-- The `Lexer` struct from `src/lexer/mod.rs`.  `input` is the source as a
character list; positions are character indices. -/
structure Lexer where
  input : List Char
  curr_position : Nat
  next_read_position : Nat
  curr_char : Char
  line : Nat
  column : Nat
deriving DecidableEq, Repr

namespace Lexer

/-- `Lexer::read_char`: updates line/column bookkeeping based on the current
character, then advances the read head (producing `'\0'` past the end). -/
def read_char (l : Lexer) : Lexer :=
  let line' := if l.curr_char = '\n' then l.line + 1 else l.line
  let col0 := if l.curr_char = '\n' then 0 else l.column
  if h : l.next_read_position < l.input.length then
    { input := l.input
      curr_char := l.input.get ⟨l.next_read_position, h⟩
      curr_position := l.next_read_position
      next_read_position := l.next_read_position + 1
      line := line'
      column := col0 + 1 }
  else
    { input := l.input
      curr_char := nul
      curr_position := l.curr_position
      next_read_position := l.next_read_position + 1
      line := line'
      column := col0 + 1 }

/-- `Lexer::new`: starts before the input and performs one `read_char`. -/
def new (input : String) : Lexer :=
  read_char
    { input := input.data
      curr_position := 0
      next_read_position := 0
      curr_char := nul
      line := 1
      column := 0 }

/-- `Lexer::peek_char`: the next character, or `'\0'` at the end. -/
def peek_char (l : Lexer) : Char :=
  if h : l.next_read_position < l.input.length then
    l.input.get ⟨l.next_read_position, h⟩
  else nul

/-- Rust `char::is_ascii_whitespace` (space, tab, LF, FF, CR). -/
def is_ascii_ws (c : Char) : Bool :=
  c = ' ' || c = '\t' || c = '\n' || c = Char.ofNat 12 || c = '\r'

/-- `Lexer::is_letter`: ASCII alphabetic or underscore. -/
def is_letter (c : Char) : Bool :=
  c.isAlpha || c = '_'

/-- `Lexer::is_digit`: ASCII digit. -/
def is_digit (c : Char) : Bool :=
  c.isDigit

/-- The `while` loop of `Lexer::skip_white_space`, with fuel.  Each
iteration advances `next_read_position` by one, so
`input.length + 2` units of fuel always suffice. -/
def skip_ws_fuel : Nat → Lexer → Lexer
  | 0, l => l
  | fuel + 1, l =>
    if is_ascii_ws l.curr_char then skip_ws_fuel fuel (read_char l) else l

/-- `Lexer::skip_white_space`. -/
def skip_white_space (l : Lexer) : Lexer :=
  skip_ws_fuel (l.input.length + 2) l

/-- The `while` loop of `Lexer::read_identifier`, with fuel. -/
def read_ident_fuel : Nat → Lexer → Lexer
  | 0, l => l
  | fuel + 1, l =>
    if is_letter l.curr_char then read_ident_fuel fuel (read_char l) else l

/-- `Lexer::read_identifier`: reads the run of letters starting at the
current position and returns the source slice together with the advanced
lexer. -/
def read_identifier (l : Lexer) : String × Lexer :=
  let start := l.curr_position
  let l' := read_ident_fuel (l.input.length + 2) l
  let stop := if l'.curr_char = nul then l'.input.length else l'.curr_position
  (String.mk ((l'.input.drop start).take (stop - start)), l')

/-- The `while` loop of `Lexer::read_number`, with fuel. -/
def read_number_fuel : Nat → Lexer → Lexer
  | 0, l => l
  | fuel + 1, l =>
    if is_digit l.curr_char then read_number_fuel fuel (read_char l) else l

/-- `Lexer::read_number`. -/
def read_number (l : Lexer) : String × Lexer :=
  let start := l.curr_position
  let l' := read_number_fuel (l.input.length + 2) l
  let stop := if l'.curr_char = nul then l'.input.length else l'.curr_position
  (String.mk ((l'.input.drop start).take (stop - start)), l')

/-- The `match self.curr_char` body of `Lexer::next_token`, applied after
whitespace has been skipped and `(line, column)` captured. -/
def next_token_core (l : Lexer) : Token × Lexer :=
  let line := l.line
  let column := l.column
  let c := l.curr_char
  if c = '=' then
    if peek_char l = '=' then
      let l2 := read_char l
      (⟨.EQ, String.mk ['=', l2.curr_char], line, column⟩, read_char l2)
    else
      (⟨.ASSIGN, String.mk [c], line, column⟩, read_char l)
  else if c = '-' then (⟨.MINUS, String.mk [c], line, column⟩, read_char l)
  else if c = '!' then
    if peek_char l = '=' then
      let l2 := read_char l
      (⟨.NOTEQ, String.mk ['!', l2.curr_char], line, column⟩, read_char l2)
    else
      (⟨.BANG, String.mk [c], line, column⟩, read_char l)
  else if c = '/' then (⟨.SLASH, String.mk [c], line, column⟩, read_char l)
  else if c = '*' then (⟨.ASTERISK, String.mk [c], line, column⟩, read_char l)
  else if c = '<' then (⟨.LT, String.mk [c], line, column⟩, read_char l)
  else if c = '>' then (⟨.GT, String.mk [c], line, column⟩, read_char l)
  else if c = '+' then (⟨.PLUS, String.mk [c], line, column⟩, read_char l)
  else if c = ',' then (⟨.COMMA, String.mk [c], line, column⟩, read_char l)
  else if c = ';' then (⟨.SEMICOLON, String.mk [c], line, column⟩, read_char l)
  else if c = '(' then (⟨.LPAREN, String.mk [c], line, column⟩, read_char l)
  else if c = ')' then (⟨.RPAREN, String.mk [c], line, column⟩, read_char l)
  else if c = lbraceChar then (⟨.LBRACE, String.mk [c], line, column⟩, read_char l)
  else if c = rbraceChar then (⟨.RBRACE, String.mk [c], line, column⟩, read_char l)
  else if c = '[' then (⟨.LBRACKET, String.mk [c], line, column⟩, read_char l)
  else if c = ']' then (⟨.RBRACKET, String.mk [c], line, column⟩, read_char l)
  else if c = ':' then (⟨.COLON, String.mk [c], line, column⟩, read_char l)
  else if c = nul then (⟨.EOF, "", line, column⟩, read_char l)
  else if is_letter c then
    let r := read_identifier l
    (⟨lookup_identifier r.1, r.1, line, column⟩, r.2)
  else if is_digit c then
    let r := read_number l
    (⟨.INT, r.1, line, column⟩, r.2)
  else (⟨.ILLEGAL, String.mk [c], line, column⟩, read_char l)

/-- `Lexer::next_token`: skip whitespace, then classify the current
character.  (In the Rust code the single-character branches perform a final
`read_char` after building the token; the identifier/number branches return
early without it.  `next_token_core` reproduces this.) -/
def next_token (l : Lexer) : Token × Lexer :=
  next_token_core (skip_white_space l)

/-- The lexer state after `n` calls to `next_token`. -/
def state_at (l : Lexer) : Nat → Lexer
  | 0 => l
  | n + 1 => (next_token (state_at l n)).2

/-- The token produced by the `(n+1)`-st call to `next_token`. -/
def nth_token (l : Lexer) (n : Nat) : Token :=
  (next_token (state_at l n)).1

end Lexer

/-- `Identifier` from `ast/expression.rs`. -/
structure Identifier where
  token : Token
  value : String

mutual
/-- The `Expression` tagged union from `ast/expression.rs`.  The parser in
`src/parser/mod.rs` additionally constructs `CallExpression` nodes
(`{ token, function, arguments }`), whose struct declaration is not among
the sources; the variant is included as the parser's constructor site
dictates. -/
inductive Expression where
  | identifierE : Identifier → Expression
  | integerLiteral : Token → Int → Expression
  | booleanLiteral : Token → Bool → Expression
  | prefixExpr : Token → String → Expression → Expression
  | infixExpr : Token → Expression → String → Expression → Expression
  | ifExpr : Token → Expression → Expression → Option Expression → Expression
  | blockStmt : Token → List Statement → Expression
  | functionLiteral : Token → List Identifier → Expression → Expression
  | callExpr : Token → Expression → List Expression → Expression

/-- The `Statement` tagged union from `rust/ast/statement.rs`. -/
inductive Statement where
  | letS : Token → Identifier → Option Expression → Statement
  | returnS : Token → Option Expression → Statement
  | exprS : Token → Expression → Statement
end

mutual
/-- The `Display` implementations for expressions (`ast/expression.rs`):
prefix prints `(<op><right>)`, infix prints `(<left> <op> <right>)`,
`BlockStatement` prints `{` then its statements with no separator then `}`,
`IfExpression` prints `if<cond><consequence>` and `else <alternative>`.
`CallExpression`'s display is modelled from the spec:
`"<callee>(a1, a2, …)"` (its Rust impl is not among the sources). -/
def exprToString : Expression → String
  | .identifierE i => i.value
  | .integerLiteral _ v => toString v
  | .booleanLiteral _ v => if v then "true" else "false"
  | .prefixExpr _ op r => "(" ++ op ++ exprToString r ++ ")"
  | .infixExpr _ l op r =>
    "(" ++ exprToString l ++ " " ++ op ++ " " ++ exprToString r ++ ")"
  | .ifExpr _ c cons alt =>
    "if" ++ exprToString c ++ exprToString cons ++
      (match alt with
       | some a => "else " ++ exprToString a
       | none => "")
  | .blockStmt _ stmts => "\x7b" ++ stmtListToString stmts ++ "\x7d"
  | .functionLiteral _ params body =>
    "fn(" ++ identListToString params ++ ") " ++ exprToString body
  | .callExpr _ f args => exprToString f ++ "(" ++ exprListToString args ++ ")"

/-- The `Display` implementations for statements (`rust/ast/statement.rs`):
`let <name> = <value>;` (value omitted when absent), `return <value>;`, and
an expression statement prints just its expression (no `;`). -/
def stmtToString : Statement → String
  | .letS tok name value =>
    tok.literal ++ " " ++ name.value ++ " = " ++
      (match value with
       | some v => exprToString v
       | none => "") ++ ";"
  | .returnS tok value =>
    tok.literal ++ " " ++
      (match value with
       | some v => exprToString v
       | none => "") ++ ";"
  | .exprS _ value => exprToString value

/-- Concatenation of statement prints, no separator (`Program`/blocks). -/
def stmtListToString : List Statement → String
  | [] => ""
  | s :: rest => stmtToString s ++ stmtListToString rest

/-- Comma-separated identifier prints (function parameters). -/
def identListToString : List Identifier → String
  | [] => ""
  | [i] => i.value
  | i :: rest => i.value ++ ", " ++ identListToString rest

/-- Comma-separated expression prints (call arguments, from the spec's
`CallExpression` display). -/
def exprListToString : List Expression → String
  | [] => ""
  | [e] => exprToString e
  | e :: rest => exprToString e ++ ", " ++ exprListToString rest
end

/-- `Program` display (`ast/mod.rs`): concatenation of its statements. -/
def programToString (statements : List Statement) : String :=
  stmtListToString statements

/-- `Node::token_literal` for statements (`rust/ast/statement.rs`). -/
def stmtTokenLiteral : Statement → String
  | .letS tok _ _ => tok.literal
  | .returnS tok _ => tok.literal
  | .exprS tok _ => tok.literal

/-- Precedence levels from `src/parser/precedence.rs` (`as i32` values). -/
def precLOWEST : Nat := 1
/-- `Precedence::EQUALS`. -/
def precEQUALS : Nat := 2
/-- `Precedence::LESSGREATER`. -/
def precLESSGREATER : Nat := 3
/-- `Precedence::SUM`. -/
def precSUM : Nat := 4
/-- `Precedence::PRODUCT`. -/
def precPRODUCT : Nat := 5
/-- `Precedence::PREFIX` (operand precedence of prefix operators). -/
def precPREFIXLVL : Nat := 6
/-- `Precedence::CALL`. -/
def precCALL : Nat := 7

/-- `Precedence::from_token_type` from `src/parser/precedence.rs`. -/
def precedence_of (t : TokenType) : Nat :=
  match t with
  | .EQ => precEQUALS
  | .NOTEQ => precEQUALS
  | .LT => precLESSGREATER
  | .GT => precLESSGREATER
  | .PLUS => precSUM
  | .MINUS => precSUM
  | .SLASH => precPRODUCT
  | .ASTERISK => precPRODUCT
  | .LPAREN => precCALL
  | _ => precLOWEST

/-- `Span` from `src/parser/error/span.rs`. -/
structure Span where
  line : Nat
  column : Nat
deriving DecidableEq, Repr

/-- `Span::from_token`. -/
def Span.from_token (t : Token) : Span :=
  ⟨t.line, t.column⟩

/-- A parser diagnostic: a message plus the source span, as built by
`ParserError::at_token(&token, format!(..))` in `src/parser/mod.rs`. -/
structure ParserError where
  message : String
  span : Span
deriving DecidableEq, Repr

/-- `ParserError::at_token`. -/
def ParserError.at_token (t : Token) (message : String) : ParserError :=
  ⟨message, Span.from_token t⟩

/-- The mutable parser state from `src/parser/mod.rs`: the lexer, the
two-token lookahead window and the accumulated error list.  (The two
dispatch tables are fixed at construction; they are modelled as the
functions `prefix_parse_fns` / `infix_parse_fns` below.) -/
structure ParserState where
  l : Lexer
  curr_token : Token
  peek_token : Token
  errors : List ParserError

namespace ParserState

/-- `Parser::next_token`: shift the lookahead window. -/
def next_token (p : ParserState) : ParserState :=
  let (t, l') := p.l.next_token
  { p with curr_token := p.peek_token, peek_token := t, l := l' }

/-- `Parser::is_curr_token`. -/
def is_curr_token (p : ParserState) (t : TokenType) : Bool :=
  p.curr_token.token_type = t

/-- `Parser::is_peek_token`. -/
def is_peek_token (p : ParserState) (t : TokenType) : Bool :=
  p.peek_token.token_type = t

/-- `self.errors.push(error)`. -/
def push_error (p : ParserState) (e : ParserError) : ParserState :=
  { p with errors := p.errors ++ [e] }

/-- `Parser::display_peek_error`: records
`"expected token to be {:?}, got {:?}"` against the peek token. -/
def display_peek_error (p : ParserState) (expected : TokenType) : ParserState :=
  p.push_error (ParserError.at_token p.peek_token
    ("expected token to be " ++ expected.debugStr ++ ", got " ++
      p.peek_token.token_type.debugStr))

/-- `Parser::expect_peek`: advance on a match, record an error otherwise. -/
def expect_peek (p : ParserState) (t : TokenType) : Bool × ParserState :=
  if p.is_peek_token t then (true, p.next_token)
  else (false, p.display_peek_error t)

/-- `Parser::no_prefix_parse_function_error`. -/
def no_prefix_fn_error (p : ParserState) : ParserState :=
  p.push_error (ParserError.at_token p.curr_token
    ("no prefix parse function for " ++ p.curr_token.token_type.debugStr))

/-- `Parser::peek_precedence`. -/
def peek_precedence (p : ParserState) : Nat :=
  precedence_of p.peek_token.token_type

/-- `Parser::curr_precedence`. -/
def curr_precedence (p : ParserState) : Nat :=
  precedence_of p.curr_token.token_type

end ParserState

/-- Tags naming the registered prefix parse functions of `Parser::new`. -/
inductive PrefixFnTag where
  | identifierFn
  | integerFn
  | prefixOpFn
  | booleanFn
  | groupedFn
  | ifFn
  | blockFn
  | functionFn
deriving DecidableEq, Repr

/-- Tags naming the registered infix parse functions of `Parser::new`. -/
inductive InfixFnTag where
  | infixOpFn
  | callFn
deriving DecidableEq, Repr

/-- The prefix dispatch table built by `Parser::new`
(`register_prefix_parse_fn` calls, `src/parser/mod.rs` lines 66-76):
IDENT, INT, BANG, MINUS, TRUE, FALSE, LPAREN, IF, LBRACE, ELSE, FUNCTION. -/
def prefix_parse_fns : TokenType → Option PrefixFnTag
  | .IDENT => some .identifierFn
  | .INT => some .integerFn
  | .BANG => some .prefixOpFn
  | .MINUS => some .prefixOpFn
  | .TRUE => some .booleanFn
  | .FALSE => some .booleanFn
  | .LPAREN => some .groupedFn
  | .IF => some .ifFn
  | .LBRACE => some .blockFn
  | .ELSE => some .ifFn
  | .FUNCTION => some .functionFn
  | _ => none

/-- The infix dispatch table built by `Parser::new`
(`register_infix_parse_fn` calls, `src/parser/mod.rs` lines 78-86). -/
def infix_parse_fns : TokenType → Option InfixFnTag
  | .PLUS => some .infixOpFn
  | .MINUS => some .infixOpFn
  | .SLASH => some .infixOpFn
  | .ASTERISK => some .infixOpFn
  | .EQ => some .infixOpFn
  | .NOTEQ => some .infixOpFn
  | .LT => some .infixOpFn
  | .GT => some .infixOpFn
  | .LPAREN => some .callFn
  | _ => none

/-- Rust `str::parse::<i64>`: optional sign, at least one ASCII digit, and
the value must fit in a signed 64-bit integer. -/
def parse_i64 (s : String) : Option Int :=
  match s.data with
  | [] => none
  | c :: rest =>
    let neg : Bool := c = '-'
    let digits : List Char :=
      if c = '-' || c = '+' then rest else c :: rest
    if digits = [] then none
    else if digits.all Char.isDigit then
      let n : Nat := digits.foldl (fun acc d => acc * 10 + (d.toNat - 48)) 0
      let v : Int := if neg then -(n : Int) else (n : Int)
      if -(2 ^ 63) ≤ v ∧ v ≤ 2 ^ 63 - 1 then some v else none
    else none

/-- `Parser::parse_identifier`. -/
def parse_identifier (p : ParserState) : Option Expression × ParserState :=
  (some (.identifierE ⟨p.curr_token, p.curr_token.literal⟩), p)

/-- `Parser::parse_integer_literal`: decimal-parse the current token's
literal as a signed 64-bit integer; on failure record
`"invalid integer literal: .."` and yield no node. -/
def parse_integer_literal (p : ParserState) : Option Expression × ParserState :=
  let token := p.curr_token
  match parse_i64 token.literal with
  | some value => (some (.integerLiteral token value), p)
  | none =>
    (none, p.push_error (ParserError.at_token token
      ("invalid integer literal: " ++ token.literal)))

/-- `Parser::parse_boolean_literal`. -/
def parse_boolean_literal (p : ParserState) : Option Expression × ParserState :=
  (some (.booleanLiteral p.curr_token (p.is_curr_token .TRUE)), p)

mutual

/-- `Parser::parse_program`: loop until the current token is `EOF`,
collecting successfully parsed statements, advancing one token after each
attempt. -/
def parse_program : Nat → ParserState → List Statement × ParserState
  | 0, p => ([], p)
  | fuel + 1, p =>
    if p.curr_token.token_type = .EOF then ([], p)
    else
      match parse_statement fuel p with
      | (s?, p) =>
        match parse_program fuel p.next_token with
        | (rest, p') =>
          (match s? with
           | some s => s :: rest
           | none => rest, p')

/-- `Parser::parse_statement`: dispatch on the current token type. -/
def parse_statement : Nat → ParserState → Option Statement × ParserState
  | 0, p => (none, p)
  | fuel + 1, p =>
    match p.curr_token.token_type with
    | .LET => parse_let_statement fuel p
    | .RETURN => parse_return_statement fuel p
    | _ => parse_expression_statement fuel p

/-- `Parser::parse_let_statement`:
`let IDENT = <expression at LOWEST> ;` (a missing value expression leaves
`value = None`; a missing `;` drops the whole statement). -/
def parse_let_statement : Nat → ParserState → Option Statement × ParserState
  | 0, p => (none, p)
  | fuel + 1, p =>
    let token := p.curr_token
    match p.expect_peek .IDENT with
    | (false, p) => (none, p)
    | (true, p) =>
      let name : Identifier := ⟨p.curr_token, p.curr_token.literal⟩
      match p.expect_peek .ASSIGN with
      | (false, p) => (none, p)
      | (true, p) =>
        let p := p.next_token
        match parse_expression fuel precLOWEST p with
        | (value, p) =>
          if p.is_peek_token .SEMICOLON then
            (some (.letS token name value), p.next_token)
          else
            (none, p.push_error (ParserError.at_token p.peek_token
              ("missing semicolon, got " ++ p.peek_token.token_type.debugStr)))

/-- `Parser::parse_return_statement`. -/
def parse_return_statement : Nat → ParserState → Option Statement × ParserState
  | 0, p => (none, p)
  | fuel + 1, p =>
    let token := p.curr_token
    if p.curr_token.token_type ≠ .RETURN then (none, p)
    else
      let p := p.next_token
      match parse_expression fuel precLOWEST p with
      | (value, p) =>
        if p.is_peek_token .SEMICOLON then
          (some (.returnS token value), p.next_token)
        else
          (none, p.push_error (ParserError.at_token p.peek_token
            ("missing semicolon, got " ++ p.peek_token.token_type.debugStr)))

/-- `Parser::parse_expression_statement`: parse one expression at `LOWEST`;
the statement's token is the *current* token after the expression has been
parsed; then require `;`. -/
def parse_expression_statement :
    Nat → ParserState → Option Statement × ParserState
  | 0, p => (none, p)
  | fuel + 1, p =>
    match parse_expression fuel precLOWEST p with
    | (none, p) => (none, p)
    | (some expr, p) =>
      let stmt := Statement.exprS p.curr_token expr
      if p.is_peek_token .SEMICOLON then (some stmt, p.next_token)
      else
        (none, p.push_error (ParserError.at_token p.peek_token
          ("missing semicolon, got " ++ p.peek_token.token_type.debugStr)))

/-- `Parser::parse_expression` (the Pratt core): look up a prefix parse
function for the current token (recording a diagnostic if none), then run
the infix loop. -/
def parse_expression : Nat → Nat → ParserState → Option Expression × ParserState
  | 0, _, p => (none, p)
  | fuel + 1, precedence, p =>
    match prefix_parse_fns p.curr_token.token_type with
    | none => (none, p.no_prefix_fn_error)
    | some tag =>
      match run_prefix_fn fuel tag p with
      | (none, p) => (none, p)
      | (some left, p) => parse_infix_loop fuel precedence left p

/-- Dispatch through the prefix table (calling the registered function). -/
def run_prefix_fn : Nat → PrefixFnTag → ParserState → Option Expression × ParserState
  | 0, _, p => (none, p)
  | fuel + 1, tag, p =>
    match tag with
    | .identifierFn => parse_identifier p
    | .integerFn => parse_integer_literal p
    | .prefixOpFn => parse_prefix_expression fuel p
    | .booleanFn => parse_boolean_literal p
    | .groupedFn => parse_grouped_expression fuel p
    | .ifFn => parse_if_expression fuel p
    | .blockFn => parse_block_statement fuel p
    | .functionFn => parse_function_literal fuel p

/-- The `while` loop of `Parser::parse_expression`: while the peek token is
not `;` and the minimum precedence is below the peek precedence, fold the
left expression through the registered infix function. -/
def parse_infix_loop :
    Nat → Nat → Expression → ParserState → Option Expression × ParserState
  | 0, _, left, p => (some left, p)
  | fuel + 1, precedence, left, p =>
    if p.is_peek_token .SEMICOLON = false ∧ precedence < p.peek_precedence then
      match infix_parse_fns p.peek_token.token_type with
      | none => (some left, p)
      | some tag =>
        let p := p.next_token
        match run_infix_fn fuel tag left p with
        | (none, p) => (none, p)
        | (some left', p) => parse_infix_loop fuel precedence left' p
    else (some left, p)

/-- Dispatch through the infix table. -/
def run_infix_fn :
    Nat → InfixFnTag → Expression → ParserState → Option Expression × ParserState
  | 0, _, _, p => (none, p)
  | fuel + 1, tag, left, p =>
    match tag with
    | .infixOpFn => parse_infix_expression fuel left p
    | .callFn => parse_call_expression fuel left p

/-- `Parser::parse_prefix_expression`: capture the operator, advance, parse
the operand at `PREFIX` precedence. -/
def parse_prefix_expression : Nat → ParserState → Option Expression × ParserState
  | 0, p => (none, p)
  | fuel + 1, p =>
    let token := p.curr_token
    let operator := p.curr_token.literal
    let p := p.next_token
    match parse_expression fuel precPREFIXLVL p with
    | (some right, p) => (some (.prefixExpr token operator right), p)
    | (none, p) =>
      (none, p.push_error (ParserError.at_token p.curr_token
        ("failed to parse prefix rhs: " ++ operator)))

/-- `Parser::parse_infix_expression`: capture operator and its precedence,
advance, parse the right operand at that precedence. -/
def parse_infix_expression :
    Nat → Expression → ParserState → Option Expression × ParserState
  | 0, _, p => (none, p)
  | fuel + 1, left, p =>
    let token := p.curr_token
    let operator := p.curr_token.literal
    let precedence := p.curr_precedence
    let p := p.next_token
    match parse_expression fuel precedence p with
    | (some right, p) => (some (.infixExpr token left operator right), p)
    | (none, p) =>
      (none, p.push_error (ParserError.at_token p.curr_token
        ("failed to parse right-hand side of infix expression: " ++ operator)))

/-- `Parser::parse_grouped_expression`. -/
def parse_grouped_expression : Nat → ParserState → Option Expression × ParserState
  | 0, p => (none, p)
  | fuel + 1, p =>
    let p := p.next_token
    match parse_expression fuel precLOWEST p with
    | (none, p) =>
      (none, p.push_error (ParserError.at_token p.curr_token
        "failed to parse grouped expression"))
    | (some expr, p) =>
      match p.expect_peek .RPAREN with
      | (false, p) => (none, p)
      | (true, p) => (some expr, p)

/-- `Parser::parse_if_expression`. -/
def parse_if_expression : Nat → ParserState → Option Expression × ParserState
  | 0, p => (none, p)
  | fuel + 1, p =>
    let token := p.curr_token
    match p.expect_peek .LPAREN with
    | (false, p) => (none, p)
    | (true, p) =>
      let p := p.next_token
      match parse_expression fuel precLOWEST p with
      | (none, p) =>
        (none, p.push_error (ParserError.at_token p.curr_token
          "failed to parse if condition"))
      | (some condition, p) =>
        match p.expect_peek .RPAREN with
        | (false, p) => (none, p)
        | (true, p) =>
          match p.expect_peek .LBRACE with
          | (false, p) => (none, p)
          | (true, p) =>
            match parse_block_statement fuel p with
            | (some (Expression.blockStmt btok bstmts), p) =>
              if p.is_peek_token .ELSE then
                let p := p.next_token
                match p.expect_peek .LBRACE with
                | (false, p) => (none, p)
                | (true, p) =>
                  match parse_block_statement fuel p with
                  | (some (Expression.blockStmt atok astmts), p) =>
                    (some (.ifExpr token condition (.blockStmt btok bstmts)
                      (some (.blockStmt atok astmts))), p)
                  | (some _, p) =>
                    (none, p.push_error (ParserError.at_token p.curr_token
                      "expected block statement for if alternative"))
                  | (none, p) =>
                    (none, p.push_error (ParserError.at_token p.curr_token
                      "failed to parse if block for alternative"))
              else
                (some (.ifExpr token condition (.blockStmt btok bstmts) none), p)
            | (some _, p) =>
              (none, p.push_error (ParserError.at_token p.curr_token
                "expected block statement for if consequence"))
            | (none, p) =>
              (none, p.push_error (ParserError.at_token p.curr_token
                "failed to parse if block for consequence"))

/-- `Parser::parse_block_statement`: capture the `{` token, run the inner
statement loop, then require `}`. -/
def parse_block_statement : Nat → ParserState → Option Expression × ParserState
  | 0, p => (none, p)
  | fuel + 1, p =>
    let token := p.curr_token
    match parse_block_loop fuel p with
    | (statements, p) =>
      match p.expect_peek .RBRACE with
      | (false, p) => (none, p)
      | (true, p) => (some (.blockStmt token statements), p)

/-- The `while` loop of `parse_block_statement`: until the peek token is
`}` or `EOF`, advance and parse one statement; a failed statement records
`"failed to parse statement in block"` and the loop continues. -/
def parse_block_loop : Nat → ParserState → List Statement × ParserState
  | 0, p => ([], p)
  | fuel + 1, p =>
    if p.is_peek_token .RBRACE = false ∧ p.is_peek_token .EOF = false then
      let p := p.next_token
      match parse_statement fuel p with
      | (some s, p) =>
        match parse_block_loop fuel p with
        | (rest, p') => (s :: rest, p')
      | (none, p) =>
        let p := p.push_error (ParserError.at_token p.curr_token
          "failed to parse statement in block")
        match parse_block_loop fuel p with
        | (rest, p') => (rest, p')
    else ([], p)

/-- `Parser::parse_function_literal`. -/
def parse_function_literal : Nat → ParserState → Option Expression × ParserState
  | 0, p => (none, p)
  | fuel + 1, p =>
    let token := p.curr_token
    match p.expect_peek .LPAREN with
    | (false, p) => (none, p)
    | (true, p) =>
      match parse_function_parameters fuel p with
      | (none, p) =>
        (none, p.push_error (ParserError.at_token p.curr_token
          "failed to parse function parameters"))
      | (some parameters, p) =>
        match p.expect_peek .LBRACE with
        | (false, p) => (none, p)
        | (true, p) =>
          match parse_block_statement fuel p with
          | (some (Expression.blockStmt btok bstmts), p) =>
            (some (.functionLiteral token parameters (.blockStmt btok bstmts)), p)
          | (some _, p) =>
            (none, p.push_error (ParserError.at_token p.curr_token
              "expected block statement for function body"))
          | (none, p) =>
            (none, p.push_error (ParserError.at_token p.curr_token
              "failed to parse function body"))

/-- `Parser::parse_function_parameters`. -/
def parse_function_parameters :
    Nat → ParserState → Option (List Identifier) × ParserState
  | 0, p => (none, p)
  | fuel + 1, p =>
    if p.is_peek_token .RPAREN then (some [], p.next_token)
    else
      let p := p.next_token
      match parse_identifier p with
      | (some (Expression.identifierE ident), p) =>
        match parse_params_loop fuel p with
        | (none, p) => (none, p)
        | (some rest, p) =>
          match p.expect_peek .RPAREN with
          | (false, p) => (none, p)
          | (true, p) => (some (ident :: rest), p)
      | (some _, p) =>
        (none, p.push_error (ParserError.at_token p.curr_token
          ("expected parameter to be an identifier, got " ++
            p.curr_token.token_type.debugStr)))
      | (none, p) =>
        (none, p.push_error (ParserError.at_token p.curr_token
          "failed to parse first parameter"))

/-- The `while is_peek_token(COMMA)` loop of `parse_function_parameters`. -/
def parse_params_loop :
    Nat → ParserState → Option (List Identifier) × ParserState
  | 0, p => (some [], p)
  | fuel + 1, p =>
    if p.is_peek_token .COMMA then
      let p := p.next_token
      let p := p.next_token
      match parse_identifier p with
      | (some (Expression.identifierE ident), p) =>
        match parse_params_loop fuel p with
        | (some rest, p') => (some (ident :: rest), p')
        | (none, p') => (none, p')
      | (some _, p) =>
        (none, p.push_error (ParserError.at_token p.curr_token
          ("expected parameter to be an identifier, got " ++
            p.curr_token.token_type.debugStr)))
      | (none, p) =>
        (none, p.push_error (ParserError.at_token p.curr_token
          "failed to parse parameter after comma"))
    else (some [], p)

/-- `Parser::parse_call_expression` (the infix function for `LPAREN`). -/
def parse_call_expression :
    Nat → Expression → ParserState → Option Expression × ParserState
  | 0, _, p => (none, p)
  | fuel + 1, function, p =>
    let token := p.curr_token
    match parse_call_arguments fuel p with
    | (none, p) =>
      (none, p.push_error (ParserError.at_token p.curr_token
        "failed to parse call arguments"))
    | (some args, p) => (some (.callExpr token function args), p)

/-- `Parser::parse_call_arguments`. -/
def parse_call_arguments :
    Nat → ParserState → Option (List Expression) × ParserState
  | 0, p => (none, p)
  | fuel + 1, p =>
    if p.is_peek_token .RPAREN then (some [], p.next_token)
    else
      let p := p.next_token
      match parse_expression fuel precLOWEST p with
      | (none, p) =>
        (none, p.push_error (ParserError.at_token p.curr_token
          "failed to parse call argument"))
      | (some first, p) =>
        match parse_call_args_loop fuel p with
        | (none, p) => (none, p)
        | (some rest, p) =>
          match p.expect_peek .RPAREN with
          | (false, p) =>
            (none, p.push_error (ParserError.at_token p.peek_token
              ("unclosed call arguments, got " ++
                p.peek_token.token_type.debugStr)))
          | (true, p) => (some (first :: rest), p)

/-- The `while is_peek_token(COMMA)` loop of `parse_call_arguments`. -/
def parse_call_args_loop :
    Nat → ParserState → Option (List Expression) × ParserState
  | 0, p => (some [], p)
  | fuel + 1, p =>
    if p.is_peek_token .COMMA then
      let p := p.next_token
      let p := p.next_token
      match parse_expression fuel precLOWEST p with
      | (none, p) =>
        (none, p.push_error (ParserError.at_token p.curr_token
          "failed to parse call argument after comma"))
      | (some arg, p) =>
        match parse_call_args_loop fuel p with
        | (some rest, p') => (some (arg :: rest), p')
        | (none, p') => (none, p')
    else (some [], p)

end

/-- `Parser::new`: prime the two-token lookahead from the lexer. -/
def Parser.new (l : Lexer) : ParserState :=
  let p0 : ParserState :=
    { l := l
      curr_token := ⟨.EOF, "", 0, 0⟩
      peek_token := ⟨.EOF, "", 0, 0⟩
      errors := [] }
  p0.next_token.next_token

/-- End-to-end: lex and parse a source string.  The fuel bound
`4 * input.length + 64` comfortably dominates the recursion depth and the
loop trip counts of `parse_program` on the inputs considered (each loop
iteration of the parser consumes at least one token, and the token count is
at most `input.length + 1`). -/
def parseProgram (input : String) : List Statement × ParserState :=
  parse_program (4 * input.length + 64) (Parser.new (Lexer.new input))

/-- The statements of `parseProgram`. -/
def parsedStatements (input : String) : List Statement :=
  (parseProgram input).1

/-- The diagnostics of `parseProgram`. -/
def parsedErrors (input : String) : List ParserError :=
  (parseProgram input).2.errors

/-- Pretty-print of the parsed program. -/
def parsedOutput (input : String) : String :=
  programToString (parsedStatements input)

/-! ## Lexer totality: supporting lemmas

The two state invariants below link the read head to the input:
`LexInv` says a non-NUL current character means the read head has not run
past the input; `LexNul` says (for inputs containing no NUL byte) a NUL
current character means the read head IS past the input.  Both are
(re-)established by every `read_char`. -/

namespace Lexer

/-- If the current character is not NUL, the read head is within bounds. -/
def LexInv (l : Lexer) : Prop :=
  l.curr_char ≠ nul → l.next_read_position ≤ l.input.length

/-- If the current character is NUL, the read head is past the input
(true for reachable states whenever the input itself contains no NUL). -/
def LexNul (l : Lexer) : Prop :=
  l.curr_char = nul → l.input.length < l.next_read_position

theorem read_char_input (l : Lexer) : (read_char l).input = l.input := by
  unfold read_char
  split <;> split <;> rfl

theorem read_char_nrp (l : Lexer) :
    (read_char l).next_read_position = l.next_read_position + 1 := by
  unfold read_char
  split <;> split <;> rfl

theorem read_char_inv (l : Lexer) : LexInv (read_char l) := by
  unfold read_char LexInv
  split <;> split
  all_goals intro h
  all_goals dsimp only at h ⊢
  all_goals first
    | omega
    | exact absurd rfl h

theorem read_char_nul (l : Lexer) (hn : nul ∉ l.input) :
    LexNul (read_char l) := by
  unfold read_char LexNul
  split <;> split
  all_goals intro h
  all_goals dsimp only at h ⊢
  all_goals first
    | omega
    | exact absurd (h ▸ List.get_mem _ _ _) hn

theorem skip_ws_fuel_input (fuel : Nat) (l : Lexer) :
    (skip_ws_fuel fuel l).input = l.input := by
  induction fuel generalizing l with
  | zero => rfl
  | succ fuel ih =>
    unfold skip_ws_fuel
    split
    · rw [ih, read_char_input]
    · rfl

theorem skip_ws_fuel_nrp (fuel : Nat) (l : Lexer) :
    l.next_read_position ≤ (skip_ws_fuel fuel l).next_read_position := by
  induction fuel generalizing l with
  | zero => exact le_refl _
  | succ fuel ih =>
    unfold skip_ws_fuel
    split
    · calc l.next_read_position ≤ (read_char l).next_read_position := by
            rw [read_char_nrp]; omega
        _ ≤ _ := ih _
    · exact le_refl _

theorem skip_ws_fuel_inv (fuel : Nat) (l : Lexer) (h : LexInv l) :
    LexInv (skip_ws_fuel fuel l) := by
  induction fuel generalizing l with
  | zero => exact h
  | succ fuel ih =>
    unfold skip_ws_fuel
    split
    · exact ih _ (read_char_inv l)
    · exact h

theorem skip_ws_fuel_nul (fuel : Nat) (l : Lexer) (hn : nul ∉ l.input)
    (h : LexNul l) : LexNul (skip_ws_fuel fuel l) := by
  induction fuel generalizing l with
  | zero => exact h
  | succ fuel ih =>
    unfold skip_ws_fuel
    split
    · exact ih _ ((read_char_input l).symm ▸ hn) (read_char_nul l hn)
    · exact h

theorem read_ident_fuel_input (fuel : Nat) (l : Lexer) :
    (read_ident_fuel fuel l).input = l.input := by
  induction fuel generalizing l with
  | zero => rfl
  | succ fuel ih =>
    unfold read_ident_fuel
    split
    · rw [ih, read_char_input]
    · rfl

theorem read_ident_fuel_nrp (fuel : Nat) (l : Lexer) :
    l.next_read_position ≤ (read_ident_fuel fuel l).next_read_position := by
  induction fuel generalizing l with
  | zero => exact le_refl _
  | succ fuel ih =>
    unfold read_ident_fuel
    split
    · calc l.next_read_position ≤ (read_char l).next_read_position := by
            rw [read_char_nrp]; omega
        _ ≤ _ := ih _
    · exact le_refl _

theorem read_ident_fuel_inv (fuel : Nat) (l : Lexer) (h : LexInv l) :
    LexInv (read_ident_fuel fuel l) := by
  induction fuel generalizing l with
  | zero => exact h
  | succ fuel ih =>
    unfold read_ident_fuel
    split
    · exact ih _ (read_char_inv l)
    · exact h

theorem read_ident_fuel_nul (fuel : Nat) (l : Lexer) (hn : nul ∉ l.input)
    (h : LexNul l) : LexNul (read_ident_fuel fuel l) := by
  induction fuel generalizing l with
  | zero => exact h
  | succ fuel ih =>
    unfold read_ident_fuel
    split
    · exact ih _ ((read_char_input l).symm ▸ hn) (read_char_nul l hn)
    · exact h

theorem read_number_fuel_input (fuel : Nat) (l : Lexer) :
    (read_number_fuel fuel l).input = l.input := by
  induction fuel generalizing l with
  | zero => rfl
  | succ fuel ih =>
    unfold read_number_fuel
    split
    · rw [ih, read_char_input]
    · rfl

theorem read_number_fuel_nrp (fuel : Nat) (l : Lexer) :
    l.next_read_position ≤ (read_number_fuel fuel l).next_read_position := by
  induction fuel generalizing l with
  | zero => exact le_refl _
  | succ fuel ih =>
    unfold read_number_fuel
    split
    · calc l.next_read_position ≤ (read_char l).next_read_position := by
            rw [read_char_nrp]; omega
        _ ≤ _ := ih _
    · exact le_refl _

theorem read_number_fuel_inv (fuel : Nat) (l : Lexer) (h : LexInv l) :
    LexInv (read_number_fuel fuel l) := by
  induction fuel generalizing l with
  | zero => exact h
  | succ fuel ih =>
    unfold read_number_fuel
    split
    · exact ih _ (read_char_inv l)
    · exact h

theorem read_number_fuel_nul (fuel : Nat) (l : Lexer) (hn : nul ∉ l.input)
    (h : LexNul l) : LexNul (read_number_fuel fuel l) := by
  induction fuel generalizing l with
  | zero => exact h
  | succ fuel ih =>
    unfold read_number_fuel
    split
    · exact ih _ ((read_char_input l).symm ▸ hn) (read_char_nul l hn)
    · exact h

theorem read_identifier_snd (l : Lexer) :
    (read_identifier l).2 = read_ident_fuel (l.input.length + 2) l := rfl

theorem read_number_snd (l : Lexer) :
    (read_number l).2 = read_number_fuel (l.input.length + 2) l := rfl

theorem skip_white_space_def (l : Lexer) :
    skip_white_space l = skip_ws_fuel (l.input.length + 2) l := rfl

theorem skip_ws_input (l : Lexer) :
    (skip_white_space l).input = l.input := skip_ws_fuel_input _ _

theorem skip_ws_nrp (l : Lexer) :
    l.next_read_position ≤ (skip_white_space l).next_read_position :=
  skip_ws_fuel_nrp _ _

theorem skip_ws_inv (l : Lexer) (h : LexInv l) :
    LexInv (skip_white_space l) := skip_ws_fuel_inv _ _ h

theorem skip_ws_nul (l : Lexer) (hn : nul ∉ l.input) (h : LexNul l) :
    LexNul (skip_white_space l) := skip_ws_fuel_nul _ _ hn h

theorem skip_ws_not_ws (l : Lexer) (h : is_ascii_ws l.curr_char = false) :
    skip_white_space l = l := by
  rw [skip_white_space_def,
    show l.input.length + 2 = (l.input.length + 1) + 1 from rfl]
  unfold skip_ws_fuel
  rw [if_neg (by simp [h])]

theorem read_ident_fuel_one (l : Lexer) (h : is_letter l.curr_char = true)
    (fuel : Nat) :
    l.next_read_position + 1 ≤
      (read_ident_fuel (fuel + 1) l).next_read_position := by
  unfold read_ident_fuel
  rw [if_pos (by simp [h])]
  calc l.next_read_position + 1 = (read_char l).next_read_position := by
        rw [read_char_nrp]
    _ ≤ _ := read_ident_fuel_nrp _ _

theorem read_number_fuel_one (l : Lexer) (h : is_digit l.curr_char = true)
    (fuel : Nat) :
    l.next_read_position + 1 ≤
      (read_number_fuel (fuel + 1) l).next_read_position := by
  unfold read_number_fuel
  rw [if_pos (by simp [h])]
  calc l.next_read_position + 1 = (read_char l).next_read_position := by
        rw [read_char_nrp]
    _ ≤ _ := read_number_fuel_nrp _ _

theorem lookup_identifier_ne_eof (s : String) :
    lookup_identifier s ≠ .EOF := by
  unfold lookup_identifier
  split_ifs <;> decide

/-- Shape of the advanced lexer returned by `next_token_core`: the lexer
after one `read_char` (single-character tokens, `EOF`, `ILLEGAL`), after
two (`==`, `!=`), or after an identifier/number read loop. -/
theorem core_snd (l : Lexer) :
    (next_token_core l).2 = read_char l ∨
    (next_token_core l).2 = read_char (read_char l) ∨
    (is_letter l.curr_char = true ∧
      (next_token_core l).2 = read_ident_fuel (l.input.length + 2) l) ∨
    (is_digit l.curr_char = true ∧
      (next_token_core l).2 = read_number_fuel (l.input.length + 2) l) := by
  unfold next_token_core
  dsimp only
  by_cases h1 : l.curr_char = '='
  · rw [if_pos h1]
    by_cases hp : peek_char l = '='
    · rw [if_pos hp]
      exact Or.inr (Or.inl rfl)
    · rw [if_neg hp]
      exact Or.inl rfl
  rw [if_neg h1]
  by_cases h2 : l.curr_char = '-'
  · rw [if_pos h2]
    exact Or.inl rfl
  rw [if_neg h2]
  by_cases h3 : l.curr_char = '!'
  · rw [if_pos h3]
    by_cases hp : peek_char l = '='
    · rw [if_pos hp]
      exact Or.inr (Or.inl rfl)
    · rw [if_neg hp]
      exact Or.inl rfl
  rw [if_neg h3]
  by_cases h4 : l.curr_char = '/'
  · rw [if_pos h4]
    exact Or.inl rfl
  rw [if_neg h4]
  by_cases h5 : l.curr_char = '*'
  · rw [if_pos h5]
    exact Or.inl rfl
  rw [if_neg h5]
  by_cases h6 : l.curr_char = '<'
  · rw [if_pos h6]
    exact Or.inl rfl
  rw [if_neg h6]
  by_cases h7 : l.curr_char = '>'
  · rw [if_pos h7]
    exact Or.inl rfl
  rw [if_neg h7]
  by_cases h8 : l.curr_char = '+'
  · rw [if_pos h8]
    exact Or.inl rfl
  rw [if_neg h8]
  by_cases h9 : l.curr_char = ','
  · rw [if_pos h9]
    exact Or.inl rfl
  rw [if_neg h9]
  by_cases h10 : l.curr_char = ';'
  · rw [if_pos h10]
    exact Or.inl rfl
  rw [if_neg h10]
  by_cases h11 : l.curr_char = '('
  · rw [if_pos h11]
    exact Or.inl rfl
  rw [if_neg h11]
  by_cases h12 : l.curr_char = ')'
  · rw [if_pos h12]
    exact Or.inl rfl
  rw [if_neg h12]
  by_cases h13 : l.curr_char = lbraceChar
  · rw [if_pos h13]
    exact Or.inl rfl
  rw [if_neg h13]
  by_cases h14 : l.curr_char = rbraceChar
  · rw [if_pos h14]
    exact Or.inl rfl
  rw [if_neg h14]
  by_cases h15 : l.curr_char = '['
  · rw [if_pos h15]
    exact Or.inl rfl
  rw [if_neg h15]
  by_cases h16 : l.curr_char = ']'
  · rw [if_pos h16]
    exact Or.inl rfl
  rw [if_neg h16]
  by_cases h17 : l.curr_char = ':'
  · rw [if_pos h17]
    exact Or.inl rfl
  rw [if_neg h17]
  by_cases h18 : l.curr_char = nul
  · rw [if_pos h18]
    exact Or.inl rfl
  rw [if_neg h18]
  by_cases h19 : is_letter l.curr_char
  · rw [if_pos (by simpa using h19)]
    exact Or.inr (Or.inr (Or.inl ⟨by simpa using h19, read_identifier_snd l⟩))
  rw [if_neg (by simpa using h19)]
  by_cases h20 : is_digit l.curr_char
  · rw [if_pos (by simpa using h20)]
    exact Or.inr (Or.inr (Or.inr ⟨by simpa using h20, read_number_snd l⟩))
  rw [if_neg (by simpa using h20)]
  exact Or.inl rfl

/-- Only the NUL branch of `next_token_core` can emit an `EOF` token. -/
theorem core_nul_of_eof (l : Lexer)
    (h : (next_token_core l).1.token_type = .EOF) : l.curr_char = nul := by
  unfold next_token_core at h
  dsimp only at h
  by_cases h1 : l.curr_char = '='
  · rw [if_pos h1] at h
    by_cases hp : peek_char l = '='
    · rw [if_pos hp] at h
      simp at h
    · rw [if_neg hp] at h
      simp at h
  rw [if_neg h1] at h
  by_cases h2 : l.curr_char = '-'
  · rw [if_pos h2] at h
    simp at h
  rw [if_neg h2] at h
  by_cases h3 : l.curr_char = '!'
  · rw [if_pos h3] at h
    by_cases hp : peek_char l = '='
    · rw [if_pos hp] at h
      simp at h
    · rw [if_neg hp] at h
      simp at h
  rw [if_neg h3] at h
  by_cases h4 : l.curr_char = '/'
  · rw [if_pos h4] at h
    simp at h
  rw [if_neg h4] at h
  by_cases h5 : l.curr_char = '*'
  · rw [if_pos h5] at h
    simp at h
  rw [if_neg h5] at h
  by_cases h6 : l.curr_char = '<'
  · rw [if_pos h6] at h
    simp at h
  rw [if_neg h6] at h
  by_cases h7 : l.curr_char = '>'
  · rw [if_pos h7] at h
    simp at h
  rw [if_neg h7] at h
  by_cases h8 : l.curr_char = '+'
  · rw [if_pos h8] at h
    simp at h
  rw [if_neg h8] at h
  by_cases h9 : l.curr_char = ','
  · rw [if_pos h9] at h
    simp at h
  rw [if_neg h9] at h
  by_cases h10 : l.curr_char = ';'
  · rw [if_pos h10] at h
    simp at h
  rw [if_neg h10] at h
  by_cases h11 : l.curr_char = '('
  · rw [if_pos h11] at h
    simp at h
  rw [if_neg h11] at h
  by_cases h12 : l.curr_char = ')'
  · rw [if_pos h12] at h
    simp at h
  rw [if_neg h12] at h
  by_cases h13 : l.curr_char = lbraceChar
  · rw [if_pos h13] at h
    simp at h
  rw [if_neg h13] at h
  by_cases h14 : l.curr_char = rbraceChar
  · rw [if_pos h14] at h
    simp at h
  rw [if_neg h14] at h
  by_cases h15 : l.curr_char = '['
  · rw [if_pos h15] at h
    simp at h
  rw [if_neg h15] at h
  by_cases h16 : l.curr_char = ']'
  · rw [if_pos h16] at h
    simp at h
  rw [if_neg h16] at h
  by_cases h17 : l.curr_char = ':'
  · rw [if_pos h17] at h
    simp at h
  rw [if_neg h17] at h
  by_cases h18 : l.curr_char = nul
  · exact h18
  rw [if_neg h18] at h
  by_cases h19 : is_letter l.curr_char
  · rw [if_pos (by simpa using h19)] at h
    exact absurd h (lookup_identifier_ne_eof _)
  rw [if_neg (by simpa using h19)] at h
  by_cases h20 : is_digit l.curr_char
  · rw [if_pos (by simpa using h20)] at h
    simp at h
  rw [if_neg (by simpa using h20)] at h
  simp at h

/-- On a NUL current character, `next_token_core` emits `EOF ""` and
advances once. -/
theorem core_eof_of_nul (l : Lexer) (h : l.curr_char = nul) :
    next_token_core l = (⟨.EOF, "", l.line, l.column⟩, read_char l) := by
  unfold next_token_core
  dsimp only
  rw [h]
  rw [if_neg (by decide : ¬ ((nul : Char) = '='))]
  rw [if_neg (by decide : ¬ ((nul : Char) = '-'))]
  rw [if_neg (by decide : ¬ ((nul : Char) = '!'))]
  rw [if_neg (by decide : ¬ ((nul : Char) = '/'))]
  rw [if_neg (by decide : ¬ ((nul : Char) = '*'))]
  rw [if_neg (by decide : ¬ ((nul : Char) = '<'))]
  rw [if_neg (by decide : ¬ ((nul : Char) = '>'))]
  rw [if_neg (by decide : ¬ ((nul : Char) = '+'))]
  rw [if_neg (by decide : ¬ ((nul : Char) = ','))]
  rw [if_neg (by decide : ¬ ((nul : Char) = ';'))]
  rw [if_neg (by decide : ¬ ((nul : Char) = '('))]
  rw [if_neg (by decide : ¬ ((nul : Char) = ')'))]
  rw [if_neg (by decide : ¬ ((nul : Char) = lbraceChar))]
  rw [if_neg (by decide : ¬ ((nul : Char) = rbraceChar))]
  rw [if_neg (by decide : ¬ ((nul : Char) = '['))]
  rw [if_neg (by decide : ¬ ((nul : Char) = ']'))]
  rw [if_neg (by decide : ¬ ((nul : Char) = ':'))]
  rw [if_pos rfl]

theorem core_input (l : Lexer) :
    ((next_token_core l).2).input = l.input := by
  rcases core_snd l with h | h | ⟨-, h⟩ | ⟨-, h⟩ <;> rw [h]
  · exact read_char_input l
  · rw [read_char_input, read_char_input]
  · exact read_ident_fuel_input _ l
  · exact read_number_fuel_input _ l

theorem core_inv (l : Lexer) (hi : LexInv l) :
    LexInv ((next_token_core l).2) := by
  rcases core_snd l with h | h | ⟨-, h⟩ | ⟨-, h⟩ <;> rw [h]
  · exact read_char_inv l
  · exact read_char_inv _
  · exact read_ident_fuel_inv _ l hi
  · exact read_number_fuel_inv _ l hi

theorem core_nul (l : Lexer) (hn : nul ∉ l.input) (hi : LexNul l) :
    LexNul ((next_token_core l).2) := by
  rcases core_snd l with h | h | ⟨-, h⟩ | ⟨-, h⟩ <;> rw [h]
  · exact read_char_nul l hn
  · exact read_char_nul _ ((read_char_input l).symm ▸ hn)
  · exact read_ident_fuel_nul _ l hn hi
  · exact read_number_fuel_nul _ l hn hi

theorem core_nrp (l : Lexer) :
    l.next_read_position + 1 ≤ ((next_token_core l).2).next_read_position := by
  rcases core_snd l with h | h | ⟨hl, h⟩ | ⟨hd, h⟩ <;> rw [h]
  · rw [read_char_nrp]
  · rw [read_char_nrp, read_char_nrp]
    omega
  · rw [show l.input.length + 2 = (l.input.length + 1) + 1 from rfl]
    exact read_ident_fuel_one l hl _
  · rw [show l.input.length + 2 = (l.input.length + 1) + 1 from rfl]
    exact read_number_fuel_one l hd _

theorem read_char_curr_past (l : Lexer)
    (h : ¬ l.next_read_position < l.input.length) :
    (read_char l).curr_char = nul := by
  unfold read_char
  dsimp only
  rw [dif_neg h]

theorem next_token_snd_input (l : Lexer) :
    ((next_token l).2).input = l.input := by
  unfold next_token
  rw [core_input, skip_ws_input]

theorem next_token_snd_inv (l : Lexer) (h : LexInv l) :
    LexInv ((next_token l).2) :=
  core_inv _ (skip_ws_inv _ h)

theorem next_token_snd_nul (l : Lexer) (hn : nul ∉ l.input) (h : LexNul l) :
    LexNul ((next_token l).2) :=
  core_nul _ ((skip_ws_input l).symm ▸ hn) (skip_ws_nul _ hn h)

theorem next_token_snd_nrp (l : Lexer) :
    l.next_read_position + 1 ≤ ((next_token l).2).next_read_position := by
  have h1 := skip_ws_nrp l
  have h2 := core_nrp (skip_white_space l)
  unfold next_token
  omega

theorem state_at_input (l : Lexer) (n : Nat) :
    (state_at l n).input = l.input := by
  induction n with
  | zero => rfl
  | succ n ih =>
    show ((next_token (state_at l n)).2).input = l.input
    rw [next_token_snd_input, ih]

theorem state_at_inv (l : Lexer) (h : LexInv l) (n : Nat) :
    LexInv (state_at l n) := by
  induction n with
  | zero => exact h
  | succ n ih => exact next_token_snd_inv _ ih

theorem state_at_nul (l : Lexer) (hn : nul ∉ l.input) (h : LexNul l)
    (n : Nat) : LexNul (state_at l n) := by
  induction n with
  | zero => exact h
  | succ n ih =>
    exact next_token_snd_nul _ (by rw [state_at_input]; exact hn) ih

theorem state_at_nrp (l : Lexer) (n : Nat) :
    l.next_read_position + n ≤ (state_at l n).next_read_position := by
  induction n with
  | zero => exact Nat.le_refl _
  | succ n ih =>
    have h2 := next_token_snd_nrp (state_at l n)
    show _ ≤ ((next_token (state_at l n)).2).next_read_position
    omega

theorem new_inv (s : String) : LexInv (new s) := read_char_inv _

theorem new_nul (s : String) (hn : nul ∉ s.data) : LexNul (new s) :=
  read_char_nul _ hn

theorem new_input (s : String) : (new s).input = s.data := read_char_input _

theorem new_nrp (s : String) : (new s).next_read_position = 1 := by
  unfold new
  rw [read_char_nrp]

/-- Once the read head has run past the input, `next_token` produces the
`EOF` token (with empty literal). -/
theorem next_token_eof_of_past (l : Lexer) (hi : LexInv l)
    (hp : l.input.length < l.next_read_position) :
    (next_token l).1 =
      ⟨.EOF, "", (skip_white_space l).line, (skip_white_space l).column⟩ := by
  have hsi := skip_ws_inv l hi
  have hnrp := skip_ws_nrp l
  have hic := skip_ws_input l
  have hcur : (skip_white_space l).curr_char = nul := by
    by_contra hne
    have hle := hsi hne
    rw [hic] at hle
    omega
  unfold next_token
  rw [core_eof_of_nul _ hcur]

/-- On a NUL current character, `next_token` emits `EOF` with literal
`""`. -/
theorem next_token_eof_of_nul_curr (l : Lexer) (h : l.curr_char = nul) :
    (next_token l).1.token_type = .EOF ∧ (next_token l).1.literal = "" := by
  unfold next_token
  rw [skip_ws_not_ws l (by rw [h]; decide), core_eof_of_nul l h]
  exact ⟨rfl, rfl⟩

/-- For a NUL-free input, once `next_token` has produced `EOF` the next
lexer state again has a NUL current character. -/
theorem next_token_eof_step (l : Lexer) (hn : nul ∉ l.input) (hl : LexNul l)
    (h : (next_token l).1.token_type = .EOF) :
    ((next_token l).2).curr_char = nul := by
  have hcur : (skip_white_space l).curr_char = nul :=
    core_nul_of_eof _ h
  have hpast := (skip_ws_nul l hn hl) hcur
  rw [skip_ws_input l] at hpast
  have hcore := core_eof_of_nul (skip_white_space l) hcur
  unfold next_token
  rw [hcore]
  refine read_char_curr_past _ ?_
  rw [skip_ws_input l]
  omega

end Lexer

/-! ## Claim theorems -/

/-- C1: the four error-free inputs parse with an empty diagnostic list and
pretty-print to the fully parenthesised forms: equal-precedence infix
operators associate left, higher precedence binds tighter, and a prefix
operator's operand is parsed at `PREFIX` precedence. -/
theorem c1_precedence_scenarios :
    (parsedErrors "-a * b;" = [] ∧
      parsedOutput "-a * b;" = "((-a) * b)") ∧
    (parsedErrors "a + b * c + d / e - f;" = [] ∧
      parsedOutput "a + b * c + d / e - f;" = "(((a + (b * c)) + (d / e)) - f)") ∧
    (parsedErrors "3 + 4 * 5 == 3 * 1 + 4 * 5;" = [] ∧
      parsedOutput "3 + 4 * 5 == 3 * 1 + 4 * 5;" =
        "((3 + (4 * 5)) == ((3 * 1) + (4 * 5)))") ∧
    (parsedErrors "!(true == true);" = [] ∧
      parsedOutput "!(true == true);" = "(!(true == true))") := by
  refine ⟨⟨?_, ?_⟩, ⟨?_, ?_⟩, ⟨?_, ?_⟩, ?_, ?_⟩ <;> rfl

/-- C2 counterexample: the input `a;` parses cleanly to a program printing
`"a"`, but re-parsing that pretty-print yields a program printing `""`
(the printer emits no `;` after an expression statement, so the reparse
records a missing-semicolon diagnostic and drops the statement). -/
theorem c2_counterexample_roundtrip :
    parsedErrors "a;" = [] ∧
    parsedOutput "a;" = "a" ∧
    parsedOutput (parsedOutput "a;") ≠ parsedOutput "a;" := by
  refine ⟨rfl, rfl, ?_⟩
  decide

/-- C2 amended: round-trip idempotence of the printer holds for the
cleanly parsed let/return scenario programs (whose statements print with a
trailing `;`), but fails as soon as a cleanly parsed program contains an
expression statement, because its print lacks the required `;`: the clean
parse of `a;` prints `"a"`, and re-parsing `"a"` yields a program printing
`""` with a missing-semicolon diagnostic. -/
theorem c2_roundtrip_amended :
    (parsedErrors "let x = 5;let y = 10;let foobar = 838383;" = [] ∧
      parsedOutput (parsedOutput "let x = 5;let y = 10;let foobar = 838383;") =
        parsedOutput "let x = 5;let y = 10;let foobar = 838383;") ∧
    (parsedErrors "return 5;return 10;return 993322;" = [] ∧
      parsedOutput (parsedOutput "return 5;return 10;return 993322;") =
        parsedOutput "return 5;return 10;return 993322;") ∧
    (parsedErrors "a;" = [] ∧
      parsedOutput "a;" = "a" ∧
      parsedOutput "a" = "" ∧
      parsedErrors "a" ≠ []) := by
  refine ⟨⟨rfl, rfl⟩, ⟨rfl, rfl⟩, rfl, rfl, rfl, ?_⟩
  decide

/-- C3 counterexample: parsing `if (x < y) { x } else { y }` does not
pretty-print to `"if(x < y)xelse y"` (the parse in fact fails and prints
`""`). -/
theorem c3_counterexample_block_print :
    parsedOutput "if (x < y) \x7b x \x7d else \x7b y \x7d" ≠
      "if(x < y)xelse y" := by
  decide

/-- C3 amended: a `BlockStatement` prints as `{`, its statements
concatenated with no separator, then `}` (braces ARE printed); and the
input `if (x < y) { x } else { y }` does not parse cleanly at all: the
inner expression statements and the if-statement itself lack terminating
semicolons, so the parse yields no statements, prints `""`, and records
five diagnostics. -/
theorem c3_block_print_amended :
    (∀ (tok : Token) (stmts : List Statement),
      exprToString (.blockStmt tok stmts) =
        "\x7b" ++ stmtListToString stmts ++ "\x7d") ∧
    (parsedStatements "if (x < y) \x7b x \x7d else \x7b y \x7d" = [] ∧
      parsedOutput "if (x < y) \x7b x \x7d else \x7b y \x7d" = "" ∧
      (parsedErrors "if (x < y) \x7b x \x7d else \x7b y \x7d").length = 5) := by
  exact ⟨fun tok stmts => rfl, rfl, rfl, rfl⟩

/-- C4 counterexample: `LBRACE` IS registered in the prefix dispatch table
(contradicting the claimed nine-entry table), and a stand-alone `{` in
expression position parses without any diagnostic. -/
theorem c4_counterexample_lbrace_registered :
    (prefix_parse_fns .LBRACE).isSome = true ∧
    parsedErrors "\x7b\x7d;" = [] := by
  exact ⟨rfl, rfl⟩

/-- C4 amended: the prefix dispatch table contains exactly the eleven
token kinds IDENT, INT, TRUE, FALSE, BANG, MINUS, LPAREN, IF, FUNCTION,
LBRACE and ELSE; in particular a stand-alone `{` in expression position is
parsed as a block-statement expression (printing `"{}"`), with no
diagnostic. -/
theorem c4_prefix_table_amended :
    (∀ t : TokenType, (prefix_parse_fns t).isSome = true ↔
      t ∈ ([.IDENT, .INT, .TRUE, .FALSE, .BANG, .MINUS, .LPAREN, .IF,
            .FUNCTION, .LBRACE, .ELSE] : List TokenType)) ∧
    (parsedErrors "\x7b\x7d;" = [] ∧ parsedOutput "\x7b\x7d;" = "\x7b\x7d") := by
  refine ⟨fun t => ?_, rfl, rfl⟩
  cases t <;> decide

/-- C6: parsing the one-token input `foobar` records exactly one
diagnostic, a missing-semicolon error whose span is the line and column
(1, 7) of the trailing `EOF` token produced by the lexer; in particular
the error list is non-empty. -/
theorem c6_missing_semicolon_span :
    parsedErrors "foobar" =
      [⟨"missing semicolon, got EOF", ⟨1, 7⟩⟩] ∧
    Lexer.nth_token (Lexer.new "foobar") 1 = ⟨.EOF, "", 1, 7⟩ ∧
    parsedErrors "foobar" ≠ [] := by
  refine ⟨rfl, rfl, ?_⟩
  decide

/-- C7 counterexample: parsing `let x = ;` yields a program with NO
statements (the let statement is dropped), so the program does not contain
a value-less `LetStatement` and does not print `"let x = ;"`. -/
theorem c7_counterexample_let_rejected :
    parsedStatements "let x = ;" = [] ∧
    parsedOutput "let x = ;" ≠ "let x = ;" := by
  refine ⟨rfl, ?_⟩
  decide

/-- C7 amended: a `LetStatement` node with an absent value does
pretty-print verbatim as `"let x = ;"`, but the parser REJECTS the input
`let x = ;`: the value expression fails (`;` has no prefix parse
function), the subsequent semicolon check then fails against `EOF`, the
statement is dropped, and two diagnostics are recorded. -/
theorem c7_let_statement_amended :
    stmtToString (.letS ⟨.LET, "let", 1, 1⟩ ⟨⟨.IDENT, "x", 1, 5⟩, "x"⟩ none) =
      "let x = ;" ∧
    parsedStatements "let x = ;" = [] ∧
    parsedErrors "let x = ;" =
      [⟨"no prefix parse function for SEMICOLON", ⟨1, 9⟩⟩,
       ⟨"missing semicolon, got EOF", ⟨1, 10⟩⟩] := by
  exact ⟨rfl, rfl, rfl⟩

/-- C5 counterexample: the input `[` lexes as `LBRACKET`, not as `ILLEGAL`
(the lexer has explicit cases for `[`, `]` and `:`). -/
theorem c5_counterexample_bracket :
    (Lexer.next_token (Lexer.new "[")).1.token_type = .LBRACKET ∧
    TokenType.LBRACKET ≠ .ILLEGAL := by
  decide

/-- C5 amended: a source character that is not ASCII whitespace, not NUL,
not an ASCII letter or underscore, not an ASCII digit, and not one of the
operator/delimiter characters `= ! + - * / < > , ; ( ) { } [ ] :` lexes as
a one-character `ILLEGAL` token; the three characters `[`, `]`, `:` are
NOT illegal — they lex as `LBRACKET`, `RBRACKET` and `COLON`. -/
theorem c5_illegal_amended :
    (∀ c : Char,
      Lexer.is_ascii_ws c = false →
      c ≠ nul →
      Lexer.is_letter c = false →
      Lexer.is_digit c = false →
      c ∉ (['=', '-', '!', '/', '*', '<', '>', '+', ',', ';', '(', ')',
            lbraceChar, rbraceChar, '[', ']', ':'] : List Char) →
      (Lexer.next_token (Lexer.new (String.mk [c]))).1 =
        ⟨.ILLEGAL, String.mk [c], 1, 1⟩) ∧
    ((Lexer.next_token (Lexer.new "[")).1 = ⟨.LBRACKET, "[", 1, 1⟩ ∧
     (Lexer.next_token (Lexer.new "]")).1 = ⟨.RBRACKET, "]", 1, 1⟩ ∧
     (Lexer.next_token (Lexer.new ":")).1 = ⟨.COLON, ":", 1, 1⟩) := by
  refine ⟨fun c hws hnul hl hd hmem => ?_, by decide, by decide, by decide⟩
  simp only [List.mem_cons, List.not_mem_nil, or_false, not_or] at hmem
  obtain ⟨he, hmi, hba, hsl, has, hlt, hgt, hpl, hco, hse, hlp, hrp, hlb,
    hrb, hlbr, hrbr, hcol⟩ := hmem
  have hnew : Lexer.new (String.mk [c]) =
      ⟨[c], 0, 1, c, 1, 1⟩ := rfl
  have hskip : Lexer.skip_white_space (⟨[c], 0, 1, c, 1, 1⟩ : Lexer) =
      ⟨[c], 0, 1, c, 1, 1⟩ := by
    unfold Lexer.skip_white_space
    simp [Lexer.skip_ws_fuel, hws]
  unfold Lexer.next_token
  rw [hnew, hskip]
  unfold Lexer.next_token_core
  simp [he, hmi, hba, hsl, has, hlt, hgt, hpl, hco, hse, hlp, hrp, hlb,
    hrb, hlbr, hrbr, hcol, hnul, hl, hd]

/-- C5 witness: the character `@` satisfies all hypotheses and lexes as
`ILLEGAL "@"`. -/
theorem c5_illegal_witness :
    (Lexer.next_token (Lexer.new (String.mk ['@']))).1 =
      ⟨.ILLEGAL, String.mk ['@'], 1, 1⟩ :=
  c5_illegal_amended.1 '@' (by decide) (by decide) (by decide) (by decide)
    (by decide)

/-- C8 counterexample: for the input `"\x00a;"` (an interior NUL byte) the
first call to `next_token` returns `EOF`, but the second returns an
`IDENT` token — so it is NOT true that for every input each call after the
first `EOF` returns `EOF` again. -/
theorem c8_counterexample_interior_nul :
    (Lexer.nth_token (Lexer.new "\x00a;") 0).token_type = .EOF ∧
    (Lexer.nth_token (Lexer.new "\x00a;") 1).token_type = .IDENT ∧
    TokenType.IDENT ≠ .EOF := by
  decide

/-- C8 amended: for every finite input containing no NUL character,
repeated calls to `next_token` reach `EOF` with literal `""` after at most
`input.length + 1` calls, and every call after an `EOF` returns `EOF` with
literal `""` again (the lexer never fails and never loops).  (With an
interior NUL the `EOF`-stability part fails, see the counterexample.) -/
theorem c8_lexer_totality_amended (input : String) (hn : nul ∉ input.data) :
    ((Lexer.nth_token (Lexer.new input) (input.length + 1)).token_type = .EOF ∧
      (Lexer.nth_token (Lexer.new input) (input.length + 1)).literal = "") ∧
    (∀ k, (Lexer.nth_token (Lexer.new input) k).token_type = .EOF →
      (Lexer.nth_token (Lexer.new input) (k + 1)).token_type = .EOF ∧
      (Lexer.nth_token (Lexer.new input) (k + 1)).literal = "") := by
  constructor
  · unfold Lexer.nth_token
    have hinv : Lexer.LexInv (Lexer.state_at (Lexer.new input) (input.length + 1)) :=
      Lexer.state_at_inv _ (Lexer.new_inv input) _
    have hnrp := Lexer.state_at_nrp (Lexer.new input) (input.length + 1)
    rw [Lexer.new_nrp] at hnrp
    have hil : (Lexer.state_at (Lexer.new input) (input.length + 1)).input.length =
        input.length := by
      rw [Lexer.state_at_input, Lexer.new_input]
      rfl
    have hpast : (Lexer.state_at (Lexer.new input) (input.length + 1)).input.length <
        (Lexer.state_at (Lexer.new input) (input.length + 1)).next_read_position := by
      omega
    rw [Lexer.next_token_eof_of_past _ hinv hpast]
    exact ⟨rfl, rfl⟩
  · intro k hk
    unfold Lexer.nth_token at hk ⊢
    have hnul_inp : nul ∉ (Lexer.state_at (Lexer.new input) k).input := by
      rw [Lexer.state_at_input, Lexer.new_input]
      exact hn
    have hln : Lexer.LexNul (Lexer.state_at (Lexer.new input) k) :=
      Lexer.state_at_nul _ (by rw [Lexer.new_input]; exact hn)
        (Lexer.new_nul input hn) _
    have hstep := Lexer.next_token_eof_step _ hnul_inp hln hk
    have hstate : Lexer.state_at (Lexer.new input) (k + 1) =
        (Lexer.next_token (Lexer.state_at (Lexer.new input) k)).2 := rfl
    rw [hstate]
    exact Lexer.next_token_eof_of_nul_curr _ hstep

/-- C8 witness: on the NUL-free input `"ab"` the fourth call (index 3,
which is `"ab".length + 1`) returns `EOF`, and so does the fifth. -/
theorem c8_lexer_totality_witness :
    (Lexer.nth_token (Lexer.new "ab") 3).token_type = .EOF ∧
    (Lexer.nth_token (Lexer.new "ab") 4).token_type = .EOF := by
  have h := c8_lexer_totality_amended "ab" (by decide)
  exact ⟨h.1.1, (h.2 3 h.1.1).1⟩

/-- C9: an `IntegerLiteral` node is built exactly when the current token's
literal parses as a signed 64-bit integer, and then carries that value
with that token; on a failed parse no node is produced and an
invalid-integer diagnostic is appended.  Concretely, `2^63` is out of
range: parsing `9223372036854775808;` yields no statement and records the
invalid-integer diagnostic first. -/
theorem c9_integer_literal :
    (∀ (p : ParserState) (v : Int),
      parse_i64 p.curr_token.literal = some v →
      parse_integer_literal p = (some (.integerLiteral p.curr_token v), p)) ∧
    (∀ p : ParserState,
      parse_i64 p.curr_token.literal = none →
      (parse_integer_literal p).1 = none ∧
      (parse_integer_literal p).2.errors = p.errors ++
        [ParserError.at_token p.curr_token
          ("invalid integer literal: " ++ p.curr_token.literal)]) ∧
    (parsedStatements "9223372036854775808;" = [] ∧
      (parsedErrors "9223372036854775808;").head? =
        some ⟨"invalid integer literal: 9223372036854775808", ⟨1, 1⟩⟩) := by
  refine ⟨fun p v h => ?_, fun p h => ?_, rfl, rfl⟩
  · simp [parse_integer_literal, h]
  · simp [parse_integer_literal, h, ParserState.push_error]

/-- C9 witness: the literal `5` parses to the value 5 and produces a node;
the literal `@` fails to parse and produces no node. -/
theorem c9_integer_literal_witness :
    parse_integer_literal (Parser.new (Lexer.new "5;")) =
      (some (.integerLiteral (Parser.new (Lexer.new "5;")).curr_token 5),
        Parser.new (Lexer.new "5;")) ∧
    (parse_integer_literal (Parser.new (Lexer.new "@;"))).1 = none :=
  ⟨c9_integer_literal.1 (Parser.new (Lexer.new "5;")) 5 (by decide),
   (c9_integer_literal.2.1 (Parser.new (Lexer.new "@;")) (by decide)).1⟩

/-- C10: the token stored in an expression statement is the parser's
current token after the expression has been fully parsed (its last token,
not its first); concretely, the statement parsed from `a + b;` has
`token_literal()` equal to `"b"`. -/
theorem c10_expression_statement_token :
    (∀ (fuel : Nat) (p p₁ p₂ : ParserState) (e : Expression) (s : Statement),
      parse_expression fuel precLOWEST p = (some e, p₁) →
      parse_expression_statement (fuel + 1) p = (some s, p₂) →
      s = .exprS p₁.curr_token e) ∧
    ((parsedStatements "a + b;").map stmtTokenLiteral = ["b"]) := by
  refine ⟨fun fuel p p₁ p₂ e s h1 h2 => ?_, rfl⟩
  unfold parse_expression_statement at h2
  rw [h1] at h2
  by_cases hsemi : p₁.is_peek_token .SEMICOLON = true
  · simp only [hsemi, if_true, Prod.mk.injEq, Option.some.injEq] at h2
    exact h2.1.symm
  · simp [hsemi] at h2

/-- C10 witness: on the input `x;` the expression `x` is parsed with the
parser state unchanged, and the resulting statement's token is that
state's current token. -/
theorem c10_expression_statement_token_witness :
    Statement.exprS (⟨.IDENT, "x", 1, 1⟩ : Token)
        (.identifierE ⟨⟨.IDENT, "x", 1, 1⟩, "x"⟩) =
      .exprS (Parser.new (Lexer.new "x;")).curr_token
        (.identifierE ⟨⟨.IDENT, "x", 1, 1⟩, "x"⟩) :=
  c10_expression_statement_token.1 2
    (Parser.new (Lexer.new "x;")) (Parser.new (Lexer.new "x;"))
    ((Parser.new (Lexer.new "x;")).next_token)
    (.identifierE ⟨⟨.IDENT, "x", 1, 1⟩, "x"⟩)
    (.exprS (⟨.IDENT, "x", 1, 1⟩ : Token)
      (.identifierE ⟨⟨.IDENT, "x", 1, 1⟩, "x"⟩))
    (by rfl) (by rfl)

end Monkey

